import Mathlib

/-!
Verification of `graphene_django_cud/mutations/batch_create.py`
(`DjangoBatchCreateMutation`).

The resolver `mutate` (lines 215-259 of the source) is embedded as a pure
function over an explicit hook record and an explicit database state.
Externally-owned pieces (the overridable lifecycle hooks from
`DjangoCudBase`, the ORM-backed `create_obj`, the authentication state of
`info.context.user`) are parameters of the embedding; the control flow of
`mutate` itself — before_mutate input override, login check, permission
check, the per-record validate / create_obj / after_create_obj loop inside
`transaction.atomic()`, the before_save collection override, and the
construction of the return payload — is translated line by line.

`transaction.atomic()` semantics: writes made by `create_obj` inside the
block are appended to the database only when the block exits without an
exception; any exception rolls the database back to its state at block
entry and is re-raised. This is encoded by every error branch of `mutate`
returning the entry database `db0` unchanged.

Python truthiness is modelled explicitly: `if updated_input:` and
`if updated_objs:` treat `None` *and* the empty list as falsy
(`applyListOverride`), while `if new_obj is not None:` only checks for
`None` (`Option.getD`).

The configuration-validation part of `__init_subclass_with_meta__`
(lines 81-89, 91-100, 183) is embedded as `init_subclass_with_meta`. The
schema/registry plumbing in between (input-type construction, registries)
is externally owned by graphene/graphene-django and has no bearing on the
claims. The external `to_snake_case` from `graphene.utils.str_converters`
is a parameter `snake` of the embedding.
-/

namespace BatchCreate

/-- Observable events of one `mutate` call, in the order the corresponding
Python calls happen. Loop events carry the 0-based index of the input
record being processed. -/
inductive Event where
  | beforeMutateEv : Event
  | authCheckEv : Event
  | permCheckEv : Event
  | validateEv : Nat → Event
  | createEv : Nat → Event
  | afterCreateEv : Nat → Event
  | beforeSaveEv : Event
  | afterMutateEv : Event
deriving DecidableEq

/-- The overridable lifecycle hooks and ambient request state that `mutate`
consumes. `Rec` is the type of one input record, `Obj` the type of a
created model instance, `E` the type of raised exceptions.
`beforeMutate`/`beforeSave` returning `none` models the Python hook
returning `None`; raising is modelled by `Except.error`. -/
structure Hooks (Rec Obj E : Type) where
  beforeMutate : List Rec → Option (List Rec)
  loginRequired : Bool
  userAuthenticated : Bool
  checkPermissions : List Rec → Except E Unit
  validate : Rec → List Rec → Except E Unit
  createObj : Rec → Except E Obj
  afterCreateObj : Rec → Obj → Except E (Option Obj)
  beforeSave : List Rec → List Obj → Except E (Option (List Obj))

/-- Python truthiness applied to an optional list result of a hook:
`if updated: xs = updated` keeps the original when the hook returned
`None` *or* an empty list. -/
def applyListOverride {α : Type} (orig : List α) (upd : Option (List α)) : List α :=
  match upd with
  | some u => if u.isEmpty then orig else u
  | none => orig

/-- The `for data in input:` loop body of `mutate` (source lines 232-251):
validate the record, create the object, run `after_create_obj` (a non-None
return replaces the tracked object), and append to `created_objs`.
Returns the emitted events, the database writes made by `create_obj`
(in order), and either the collected `created_objs` or the first raised
exception. `full` is the whole input list (passed to hooks as
`full_input`/`input`), `i` the index of the current record. -/
def createLoop {Rec Obj E : Type} (h : Hooks Rec Obj E) (full : List Rec) :
    List Rec → Nat → List Event × List Obj × Except E (List Obj)
  | [], _ => ([], [], Except.ok [])
  | r :: rest, i =>
    match h.validate r full with
    | Except.error e => ([Event.validateEv i], [], Except.error e)
    | Except.ok _ =>
      match h.createObj r with
      | Except.error e => ([Event.validateEv i, Event.createEv i], [], Except.error e)
      | Except.ok obj =>
        match h.afterCreateObj r obj with
        | Except.error e =>
            ([Event.validateEv i, Event.createEv i, Event.afterCreateEv i], [obj],
              Except.error e)
        | Except.ok newObj =>
            let kept := newObj.getD obj
            let tail := createLoop h full rest (i + 1)
            (Event.validateEv i :: Event.createEv i :: Event.afterCreateEv i :: tail.1,
              obj :: tail.2.1,
              match tail.2.2 with
              | Except.error e => Except.error e
              | Except.ok objs => Except.ok (kept :: objs))

/-- The event trace of a fully successful loop over `n` records starting at
index `i`: validate, create, after-create for each record in turn. -/
def loopEvents : Nat → Nat → List Event
  | _, 0 => []
  | i, n + 1 =>
    Event.validateEv i :: Event.createEv i :: Event.afterCreateEv i :: loopEvents (i + 1) n

/-- Outcome of one `mutate` call: the event trace, the final database
state, and either the raised exception or the returned payload
`(return_field_name, created_objs)`. -/
structure MutateOutcome (Obj E : Type) where
  trace : List Event
  db : List Obj
  result : Except E (String × List Obj)

/-- Embedding of `DjangoBatchCreateMutation.mutate` (source lines 215-259).
`authError` is the `GraphQLError("Must be logged in to access this
mutation.")` raised at line 222; `returnFieldName` is
`cls._meta.return_field_name`; `db0` the database at call entry. -/
def mutate {Rec Obj E : Type} (h : Hooks Rec Obj E) (authError : E)
    (returnFieldName : String) (db0 : List Obj) (input : List Rec) :
    MutateOutcome Obj E :=
  let input1 := applyListOverride input (h.beforeMutate input)
  if h.loginRequired && !h.userAuthenticated then
    { trace := [Event.beforeMutateEv, Event.authCheckEv], db := db0,
      result := Except.error authError }
  else
    match h.checkPermissions input1 with
    | Except.error e =>
        { trace := [Event.beforeMutateEv, Event.authCheckEv, Event.permCheckEv],
          db := db0, result := Except.error e }
    | Except.ok _ =>
        let res := createLoop h input1 input1 0
        match res.2.2 with
        | Except.error e =>
            { trace := Event.beforeMutateEv :: Event.authCheckEv :: Event.permCheckEv ::
                res.1,
              db := db0, result := Except.error e }
        | Except.ok objs =>
            match h.beforeSave input1 objs with
            | Except.error e =>
                { trace := Event.beforeMutateEv :: Event.authCheckEv :: Event.permCheckEv ::
                    (res.1 ++ [Event.beforeSaveEv]),
                  db := db0, result := Except.error e }
            | Except.ok upd =>
                { trace := Event.beforeMutateEv :: Event.authCheckEv :: Event.permCheckEv ::
                    (res.1 ++ [Event.beforeSaveEv, Event.afterMutateEv]),
                  db := db0 ++ res.2.1,
                  result := Except.ok (returnFieldName, applyListOverride objs upd) }

/-- The slice of `_meta` populated by `__init_subclass_with_meta__` that the
claims are about. -/
structure InitMeta where
  return_field_name : String
  login_required : Bool
  fields : List String
  exclude : List String
deriving DecidableEq

/-- The configuration-validation part of
`DjangoBatchCreateMutation.__init_subclass_with_meta__` (source lines
81-100 and 183), in source order: default the return field name to
`to_snake_case(model.__name__) + "s"` when unset or empty (Python
`if not return_field_name:`), raise on `fields`/`only_fields` and
`exclude`/`exclude_fields` conflicts, apply the deprecated-option
fallbacks, and compute `_meta.login_required = login_required or
(permissions and len(permissions) > 0)` (Python truthiness: `None` and
`False` both fall through to the permissions test; `None` and the empty
list of permissions are falsy). `snake` is the external `to_snake_case`.
The return-field-name default (source lines 81-83) is split out as
`defaultedReturnFieldName`: Python `if not return_field_name:` treats
`None` and the empty string alike. -/
def defaultedReturnFieldName (snake : String → String) (model_name : String)
    (return_field_name : Option String) : String :=
  match return_field_name with
  | some s => if s.isEmpty then snake model_name ++ "s" else s
  | none => snake model_name ++ "s"

/-- See `defaultedReturnFieldName` for the shared doc; this is the main
embedding of `__init_subclass_with_meta__`. -/
def init_subclass_with_meta (snake : String → String) (model_name : String)
    (permissions : Option (List String)) (login_required : Option Bool)
    (fields only_fields exclude exclude_fields : List String)
    (return_field_name : Option String) : Except String InitMeta :=
  let rfn := defaultedReturnFieldName snake model_name return_field_name
  if !fields.isEmpty && !only_fields.isEmpty then
    Except.error "Cannot set both fields and only_fields on a mutation"
  else if !exclude.isEmpty && !exclude_fields.isEmpty then
    Except.error "Cannot set both exclude and exclude_fields on a mutation"
  else
    let fields1 := if !only_fields.isEmpty then only_fields else fields
    let exclude1 := if !exclude_fields.isEmpty then exclude_fields else exclude
    let lr := match login_required with
      | some true => true
      | _ =>
        match permissions with
        | some ps => !ps.isEmpty
        | none => false
    Except.ok { return_field_name := rfn, login_required := lr,
                fields := fields1, exclude := exclude1 }

/-- When every record in `recs` validates, creates as `f`, and gets
`after_create_obj` answer `g r`, the loop emits the canonical event
sequence, writes `recs.map f` to the database, and collects
`(g r).getD (f r)` for each record, in input order. -/
theorem createLoop_success {Rec Obj E : Type} (h : Hooks Rec Obj E) (full : List Rec)
    (f : Rec → Obj) (g : Rec → Option Obj) (recs : List Rec) (i : Nat)
    (hval : ∀ r ∈ recs, h.validate r full = Except.ok ())
    (hcr : ∀ r ∈ recs, h.createObj r = Except.ok (f r))
    (hac : ∀ r ∈ recs, h.afterCreateObj r (f r) = Except.ok (g r)) :
    createLoop h full recs i =
      (loopEvents i recs.length, recs.map f,
        Except.ok (recs.map fun r => (g r).getD (f r))) := by
  induction recs generalizing i with
  | nil => rfl
  | cons r rest ih =>
    have hv := hval r (List.mem_cons_self r rest)
    have hc := hcr r (List.mem_cons_self r rest)
    have ha := hac r (List.mem_cons_self r rest)
    have ihr := ih (i + 1)
      (fun x hx => hval x (List.mem_cons_of_mem r hx))
      (fun x hx => hcr x (List.mem_cons_of_mem r hx))
      (fun x hx => hac x (List.mem_cons_of_mem r hx))
    simp [createLoop, hv, hc, ha, ihr, loopEvents]

/-- If some record in `recs` fails validation, the loop raises (whatever
the other hooks do). -/
theorem createLoop_validate_error {Rec Obj E : Type} (h : Hooks Rec Obj E)
    (full : List Rec) (recs : List Rec) (i : Nat)
    (hex : ∃ r ∈ recs, ∃ e, h.validate r full = Except.error e) :
    ∃ e, (createLoop h full recs i).2.2 = Except.error e := by
  induction recs generalizing i with
  | nil =>
    obtain ⟨r, hr, _⟩ := hex
    cases hr
  | cons a rest ih =>
    cases hva : h.validate a full with
    | error e => exact ⟨e, by simp [createLoop, hva]⟩
    | ok u =>
      have hrest : ∃ r ∈ rest, ∃ e, h.validate r full = Except.error e := by
        obtain ⟨r, hr, e, he⟩ := hex
        rcases List.mem_cons.mp hr with h1 | h2
        · subst h1
          rw [hva] at he
          cases he
        · exact ⟨r, h2, e, he⟩
      cases hca : h.createObj a with
      | error e => exact ⟨e, by simp [createLoop, hva, hca]⟩
      | ok obj =>
        cases haa : h.afterCreateObj a obj with
        | error e => exact ⟨e, by simp [createLoop, hva, hca, haa]⟩
        | ok nob =>
          obtain ⟨e, he⟩ := ih (i + 1) hrest
          exact ⟨e, by simp [createLoop, hva, hca, haa, he]⟩

/-- If the records before `r` all fully succeed and `r` fails validation
with `e`, the loop over `pre ++ r :: post` raises exactly `e`. -/
theorem createLoop_prefix_validate_error {Rec Obj E : Type} (h : Hooks Rec Obj E)
    (full : List Rec) (f : Rec → Obj) (g : Rec → Option Obj) (r : Rec)
    (post : List Rec) (e : E) (hvr : h.validate r full = Except.error e)
    (pre : List Rec) (i : Nat)
    (hval : ∀ p ∈ pre, h.validate p full = Except.ok ())
    (hcr : ∀ p ∈ pre, h.createObj p = Except.ok (f p))
    (hac : ∀ p ∈ pre, h.afterCreateObj p (f p) = Except.ok (g p)) :
    (createLoop h full (pre ++ r :: post) i).2.2 = Except.error e := by
  induction pre generalizing i with
  | nil => simp [createLoop, hvr]
  | cons a rest ih =>
    have hva := hval a (List.mem_cons_self a rest)
    have hca := hcr a (List.mem_cons_self a rest)
    have haa := hac a (List.mem_cons_self a rest)
    have ihr := ih (i + 1)
      (fun p hp => hval p (List.mem_cons_of_mem a hp))
      (fun p hp => hcr p (List.mem_cons_of_mem a hp))
      (fun p hp => hac p (List.mem_cons_of_mem a hp))
    simp [createLoop, hva, hca, haa, ihr]

/-- The call `mutate` either raises, or returns the payload under exactly the
configured return field name. -/
theorem mutate_result_shape {Rec Obj E : Type} (h : Hooks Rec Obj E) (authError : E)
    (rfn : String) (db0 : List Obj) (input : List Rec) :
    (∃ e, (mutate h authError rfn db0 input).result = Except.error e) ∨
    (∃ objs, (mutate h authError rfn db0 input).result = Except.ok (rfn, objs)) := by
  unfold mutate
  dsimp only
  split
  · exact Or.inl ⟨authError, rfl⟩
  · split
    · exact Or.inl ⟨_, rfl⟩
    · split
      · exact Or.inl ⟨_, rfl⟩
      · split
        · exact Or.inl ⟨_, rfl⟩
        · exact Or.inr ⟨_, rfl⟩

/-- The transaction either commits (the call returns a payload) or the
database is exactly what it was at entry: rollback is total. -/
theorem mutate_db_shape {Rec Obj E : Type} (h : Hooks Rec Obj E) (authError : E)
    (rfn : String) (db0 : List Obj) (input : List Rec) :
    (mutate h authError rfn db0 input).db = db0 ∨
    (∃ p, (mutate h authError rfn db0 input).result = Except.ok p) := by
  unfold mutate
  dsimp only
  split
  · exact Or.inl rfl
  · split
    · exact Or.inl rfl
    · split
      · exact Or.inl rfl
      · split
        · exact Or.inl rfl
        · exact Or.inr ⟨_, rfl⟩

/-- Every trace of `mutate` starts with the `before_mutate` call. -/
theorem mutate_trace_head {Rec Obj E : Type} (h : Hooks Rec Obj E) (authError : E)
    (rfn : String) (db0 : List Obj) (input : List Rec) :
    (mutate h authError rfn db0 input).trace.head? = some Event.beforeMutateEv := by
  unfold mutate
  dsimp only
  split
  · rfl
  · split
    · rfl
    · split
      · rfl
      · split
        · rfl
        · rfl

/-- Full description of a successful `mutate` run: hypotheses say that
`before_mutate` returns `None`, the login check passes, permissions
check out, and every record validates, creates as `f`, and gets
`after_create_obj` answer `g r`; `before_save` answers `upd`. -/
theorem mutate_success_eq {Rec Obj E : Type} (h : Hooks Rec Obj E) (authError : E)
    (rfn : String) (db0 : List Obj) (input : List Rec) (f : Rec → Obj)
    (g : Rec → Option Obj) (upd : Option (List Obj))
    (hbm : h.beforeMutate input = none)
    (hauth : h.loginRequired = false ∨ h.userAuthenticated = true)
    (hperm : h.checkPermissions input = Except.ok ())
    (hval : ∀ r ∈ input, h.validate r input = Except.ok ())
    (hcr : ∀ r ∈ input, h.createObj r = Except.ok (f r))
    (hac : ∀ r ∈ input, h.afterCreateObj r (f r) = Except.ok (g r))
    (hbs : h.beforeSave input (input.map fun r => (g r).getD (f r)) = Except.ok upd) :
    mutate h authError rfn db0 input =
      { trace := Event.beforeMutateEv :: Event.authCheckEv :: Event.permCheckEv ::
          (loopEvents 0 input.length ++ [Event.beforeSaveEv, Event.afterMutateEv]),
        db := db0 ++ input.map f,
        result := Except.ok (rfn,
          applyListOverride (input.map fun r => (g r).getD (f r)) upd) } := by
  have hcond : (h.loginRequired && !h.userAuthenticated) = false := by
    rcases hauth with h1 | h1 <;> simp [h1]
  have hloop := createLoop_success h input f g input 0 hval hcr hac
  simp [mutate, applyListOverride, hbm, hcond, hperm, hloop, hbs]

/-- A concrete, fully defaulted hook record over `Nat` records, objects and
errors: no input override, no login requirement, permissions pass, every
record validates, `create_obj` persists `r + 100` for record `r`,
`after_create_obj` and `before_save` answer `None`. -/
def baseHooks : Hooks Nat Nat Nat :=
  { beforeMutate := fun _ => none,
    loginRequired := false,
    userAuthenticated := true,
    checkPermissions := fun _ => Except.ok (),
    validate := fun _ _ => Except.ok (),
    createObj := fun r => Except.ok (r + 100),
    afterCreateObj := fun _ _ => Except.ok none,
    beforeSave := fun _ _ => Except.ok none }

/-- Like `baseHooks`, except the record `2` fails validation with error `42`. -/
def valFailHooks : Hooks Nat Nat Nat :=
  { baseHooks with
    validate := fun r _ => if r = 2 then Except.error 42 else Except.ok () }

/-- Like `baseHooks`, except login is required and the user is anonymous. -/
def unauthHooks : Hooks Nat Nat Nat :=
  { baseHooks with loginRequired := true, userAuthenticated := false }

/-- C1: For every valid input list of length N — `before_mutate` returning
`None`, the login check satisfied, the permission check passing, every
validation passing, every `create_obj` succeeding, and the default
(`None`-returning) `after_create_obj` and `before_save` — `mutate`
persists exactly N new objects and returns them under the configured
field name in the same order as the input records. -/
theorem C1_creates_N_objects_in_input_order {Rec Obj E : Type} (h : Hooks Rec Obj E)
    (authError : E) (rfn : String) (db0 : List Obj) (input : List Rec) (f : Rec → Obj)
    (hbm : h.beforeMutate input = none)
    (hauth : h.loginRequired = false ∨ h.userAuthenticated = true)
    (hperm : h.checkPermissions input = Except.ok ())
    (hval : ∀ r ∈ input, h.validate r input = Except.ok ())
    (hcr : ∀ r ∈ input, h.createObj r = Except.ok (f r))
    (hac : ∀ r ∈ input, h.afterCreateObj r (f r) = Except.ok none)
    (hbs : h.beforeSave input (input.map f) = Except.ok none) :
    (mutate h authError rfn db0 input).result = Except.ok (rfn, input.map f) ∧
    (input.map f).length = input.length ∧
    (mutate h authError rfn db0 input).db = db0 ++ input.map f := by
  have hm := mutate_success_eq h authError rfn db0 input f (fun _ => none) none
    hbm hauth hperm hval hcr hac hbs
  rw [hm]
  refine ⟨?_, List.length_map input f, rfl⟩
  simp [applyListOverride]

/-- C1 witness: three records `[1, 2, 3]` yield exactly the three objects
`[101, 102, 103]`, in input order, appended to the database. -/
theorem C1_witness :
    (mutate baseHooks 0 "xs" [5] [1, 2, 3]).result = Except.ok ("xs", [101, 102, 103]) ∧
    ([101, 102, 103] : List Nat).length = ([1, 2, 3] : List Nat).length ∧
    (mutate baseHooks 0 "xs" [5] [1, 2, 3]).db = [5] ++ [101, 102, 103] :=
  C1_creates_N_objects_in_input_order baseHooks 0 "xs" [5] [1, 2, 3]
    (fun r => r + 100) rfl (Or.inl rfl) rfl
    (fun _ _ => rfl) (fun _ _ => rfl) (fun _ _ => rfl) rfl

/-- C2: If the validation hook raises for any record at any position (the
call being otherwise authorized), `mutate` raises and the database is
exactly what it was at entry: every write made for earlier records in the
batch is rolled back and no partial state remains. -/
theorem C2_validation_failure_persists_nothing {Rec Obj E : Type} (h : Hooks Rec Obj E)
    (authError : E) (rfn : String) (db0 : List Obj) (input : List Rec)
    (hbm : h.beforeMutate input = none)
    (hauth : h.loginRequired = false ∨ h.userAuthenticated = true)
    (hperm : h.checkPermissions input = Except.ok ())
    (hval : ∃ r ∈ input, ∃ e, h.validate r input = Except.error e) :
    (∃ e, (mutate h authError rfn db0 input).result = Except.error e) ∧
    (mutate h authError rfn db0 input).db = db0 := by
  obtain ⟨e, he⟩ := createLoop_validate_error h input input 0 hval
  have hcond : (h.loginRequired && !h.userAuthenticated) = false := by
    rcases hauth with h1 | h1 <;> simp [h1]
  have hres : (mutate h authError rfn db0 input).result = Except.error e := by
    simp [mutate, applyListOverride, hbm, hcond, hperm, he]
  refine ⟨⟨e, hres⟩, ?_⟩
  rcases mutate_db_shape h authError rfn db0 input with h1 | ⟨p, hp⟩
  · exact h1
  · rw [hres] at hp
    cases hp

/-- C2 witness: with record `2` (in the middle of `[1, 2, 3]`) failing
validation, the call raises and the database stays `[5]` — the write
already made for record `1` does not survive. -/
theorem C2_witness :
    (∃ e, (mutate valFailHooks 0 "xs" [5] [1, 2, 3]).result = Except.error e) ∧
    (mutate valFailHooks 0 "xs" [5] [1, 2, 3]).db = [5] :=
  C2_validation_failure_persists_nothing valFailHooks 0 "xs" [5] [1, 2, 3]
    rfl (Or.inl rfl) rfl ⟨2, by simp, 42, rfl⟩

/-- C3: When login is required and the requesting user is not
authenticated, `mutate` raises the authorization error, the database is
untouched, the trace is just the `before_mutate` call and the failed
login check — in particular no `create_obj` call ever happens. -/
theorem C3_unauthenticated_never_reaches_persistence {Rec Obj E : Type}
    (h : Hooks Rec Obj E) (authError : E) (rfn : String) (db0 : List Obj)
    (input : List Rec)
    (hlr : h.loginRequired = true) (hua : h.userAuthenticated = false) :
    (mutate h authError rfn db0 input).result = Except.error authError ∧
    (mutate h authError rfn db0 input).db = db0 ∧
    (mutate h authError rfn db0 input).trace = [Event.beforeMutateEv, Event.authCheckEv] ∧
    ∀ i, Event.createEv i ∉ (mutate h authError rfn db0 input).trace := by
  have hm : mutate h authError rfn db0 input =
      { trace := [Event.beforeMutateEv, Event.authCheckEv], db := db0,
        result := Except.error authError } := by
    simp [mutate, hlr, hua]
  rw [hm]
  exact ⟨rfl, rfl, rfl, fun i => by simp⟩

/-- C3 witness: an anonymous caller of a login-required mutation gets the
authorization error, no write, and a trace that stops at the login
check. -/
theorem C3_witness :
    (mutate unauthHooks 0 "xs" [5] [1, 2, 3]).result = Except.error 0 ∧
    (mutate unauthHooks 0 "xs" [5] [1, 2, 3]).db = [5] ∧
    (mutate unauthHooks 0 "xs" [5] [1, 2, 3]).trace =
      [Event.beforeMutateEv, Event.authCheckEv] ∧
    ∀ i, Event.createEv i ∉ (mutate unauthHooks 0 "xs" [5] [1, 2, 3]).trace :=
  C3_unauthenticated_never_reaches_persistence unauthHooks 0 "xs" [5] [1, 2, 3] rfl rfl

/-- Atomicity of the batch: whenever `mutate` raises — for any hooks, any
input, any single failing record — the database is exactly what it was at
entry. -/
def transactionAborts : Prop :=
  ∀ (Rec Obj E : Type) (h : Hooks Rec Obj E) (authError : E) (rfn : String)
    (db0 : List Obj) (input : List Rec) (e : E),
    (mutate h authError rfn db0 input).result = Except.error e →
    (mutate h authError rfn db0 input).db = db0

/-- C4: On a successful run the trace is exactly: `before_mutate`, the
login check, the permission check, then per record — in input order —
validate, create, `after_create_obj`, then `before_save` once after the
whole loop, then `after_mutate`; and (second conjunct) a failure in any
record aborts all writes of the batch. -/
theorem C4_sequential_hook_order_and_atomicity {Rec Obj E : Type} (h : Hooks Rec Obj E)
    (authError : E) (rfn : String) (db0 : List Obj) (input : List Rec) (f : Rec → Obj)
    (g : Rec → Option Obj) (upd : Option (List Obj))
    (hbm : h.beforeMutate input = none)
    (hauth : h.loginRequired = false ∨ h.userAuthenticated = true)
    (hperm : h.checkPermissions input = Except.ok ())
    (hval : ∀ r ∈ input, h.validate r input = Except.ok ())
    (hcr : ∀ r ∈ input, h.createObj r = Except.ok (f r))
    (hac : ∀ r ∈ input, h.afterCreateObj r (f r) = Except.ok (g r))
    (hbs : h.beforeSave input (input.map fun r => (g r).getD (f r)) = Except.ok upd) :
    (mutate h authError rfn db0 input).trace =
      Event.beforeMutateEv :: Event.authCheckEv :: Event.permCheckEv ::
        (loopEvents 0 input.length ++ [Event.beforeSaveEv, Event.afterMutateEv]) ∧
    transactionAborts := by
  constructor
  · rw [mutate_success_eq h authError rfn db0 input f g upd
      hbm hauth hperm hval hcr hac hbs]
  · intro Rec1 Obj1 E1 h1 aE1 rfn1 db1 input1 e1 he1
    rcases mutate_db_shape h1 aE1 rfn1 db1 input1 with hd | ⟨p, hp⟩
    · exact hd
    · rw [he1] at hp
      cases hp

/-- C4 witness: two records produce the trace before-mutate, auth check,
permission check, (validate, create, after-create) for record 0 then
record 1, before-save, after-mutate; atomicity holds. -/
theorem C4_witness :
    (mutate baseHooks 0 "xs" [] [1, 2]).trace =
      Event.beforeMutateEv :: Event.authCheckEv :: Event.permCheckEv ::
        (loopEvents 0 2 ++ [Event.beforeSaveEv, Event.afterMutateEv]) ∧
    transactionAborts :=
  C4_sequential_hook_order_and_atomicity baseHooks 0 "xs" [] [1, 2]
    (fun r => r + 100) (fun _ => none) none rfl (Or.inl rfl) rfl
    (fun _ _ => rfl) (fun _ _ => rfl) (fun _ _ => rfl) rfl

/-- Like `baseHooks`, except `before_save` answers the empty collection as
replacement. -/
def emptyReplaceHooks : Hooks Nat Nat Nat :=
  { baseHooks with beforeSave := fun _ _ => Except.ok (some []) }

/-- Like `baseHooks`, except `after_create_obj` substitutes `r + 1` for record
`r` and `before_save` substitutes the whole collection by `[99]`. -/
def replaceHooks : Hooks Nat Nat Nat :=
  { baseHooks with
    afterCreateObj := fun r _ => Except.ok (some (r + 1)),
    beforeSave := fun _ _ => Except.ok (some [99]) }

/-- C5 counterexample: `before_save` returns the replacement collection
`[]` (not `None`), yet the returned set is the original `[107]`, not the
replacement — the code guards the override with Python truthiness
(`if updated_objs:`), so an empty replacement collection does not take
the place of the whole collection. -/
theorem C5_counterexample_empty_replacement_ignored :
    emptyReplaceHooks.beforeSave [7] [107] = Except.ok (some []) ∧
    (mutate emptyReplaceHooks 0 "xs" [] [7]).result = Except.ok ("xs", [107]) ∧
    ("xs", ([107] : List Nat)) ≠ ("xs", ([] : List Nat)) := by
  refine ⟨rfl, rfl, by simp⟩

/-- C5 amended: a non-`None` `after_create_obj` return takes the place of
the created object at its position; a `before_save` return replaces the
whole collection only when it is non-empty (a `None` or empty return
leaves the per-record results in place); the returned set reflects the
last effective substitution. -/
theorem C5_amended_substitution_semantics {Rec Obj E : Type} (h : Hooks Rec Obj E)
    (authError : E) (rfn : String) (db0 : List Obj) (input : List Rec)
    (f gg : Rec → Obj) (upd : Option (List Obj))
    (hbm : h.beforeMutate input = none)
    (hauth : h.loginRequired = false ∨ h.userAuthenticated = true)
    (hperm : h.checkPermissions input = Except.ok ())
    (hval : ∀ r ∈ input, h.validate r input = Except.ok ())
    (hcr : ∀ r ∈ input, h.createObj r = Except.ok (f r))
    (hac : ∀ r ∈ input, h.afterCreateObj r (f r) = Except.ok (some (gg r)))
    (hbs : h.beforeSave input (input.map gg) = Except.ok upd) :
    (mutate h authError rfn db0 input).result =
      Except.ok (rfn, applyListOverride (input.map gg) upd) := by
  have hm := mutate_success_eq h authError rfn db0 input f (fun r => some (gg r)) upd
    hbm hauth hperm hval hcr hac hbs
  rw [hm]
  simp

/-- C5 amended witness: `after_create_obj` turns record `7` into object
`8`; `before_save` then substitutes the non-empty collection `[99]`,
which is what the call returns. -/
theorem C5_witness :
    (mutate replaceHooks 0 "xs" [] [7]).result = Except.ok ("xs", [99]) :=
  C5_amended_substitution_semantics replaceHooks 0 "xs" [] [7]
    (fun r => r + 100) (fun r => r + 1) (some [99]) rfl (Or.inl rfl) rfl
    (fun _ _ => rfl) (fun _ _ => rfl) (fun _ _ => rfl) rfl

/-- C6: an error raised by the validation hook on record `r` — the records
before it all succeeding — propagates unchanged to the caller: the very
error value the hook raised is the one the caller observes. -/
theorem C6_validation_error_propagates_unchanged {Rec Obj E : Type}
    (h : Hooks Rec Obj E) (authError : E) (rfn : String) (db0 : List Obj)
    (pre post : List Rec) (r : Rec) (e : E) (f : Rec → Obj) (g : Rec → Option Obj)
    (hbm : h.beforeMutate (pre ++ r :: post) = none)
    (hauth : h.loginRequired = false ∨ h.userAuthenticated = true)
    (hperm : h.checkPermissions (pre ++ r :: post) = Except.ok ())
    (hvalpre : ∀ p ∈ pre, h.validate p (pre ++ r :: post) = Except.ok ())
    (hcrpre : ∀ p ∈ pre, h.createObj p = Except.ok (f p))
    (hacpre : ∀ p ∈ pre, h.afterCreateObj p (f p) = Except.ok (g p))
    (hvr : h.validate r (pre ++ r :: post) = Except.error e) :
    (mutate h authError rfn db0 (pre ++ r :: post)).result = Except.error e := by
  have hcond : (h.loginRequired && !h.userAuthenticated) = false := by
    rcases hauth with h1 | h1 <;> simp [h1]
  have hl := createLoop_prefix_validate_error h (pre ++ r :: post) f g r post e hvr
    pre 0 hvalpre hcrpre hacpre
  simp [mutate, applyListOverride, hbm, hcond, hperm, hl]

/-- C6 witness: validation of record `2` raises the error value `42`; the
caller observes exactly `42`. -/
theorem C6_witness :
    (mutate valFailHooks 0 "xs" [5] ([1] ++ 2 :: [3])).result = Except.error 42 :=
  C6_validation_error_propagates_unchanged valFailHooks 0 "xs" [5] [1] [3] 2 42
    (fun r => r + 100) (fun _ => none) rfl (Or.inl rfl) rfl
    (by intro p hp; simp at hp; subst hp; rfl)
    (fun _ _ => rfl) (fun _ _ => rfl) rfl

/-- C7: a successful `mutate` returns the created set under exactly the
configured return field name, and the configuration defaults that name to
the snake-cased model name with an "s" appended when it is unset (or set
to the empty string, which Python `if not return_field_name:` also treats
as unset). -/
theorem C7_return_field_name (snake : String → String) (model_name : String)
    (permissions : Option (List String)) (login_required : Option Bool)
    (fields only_fields exclude exclude_fields : List String)
    (return_field_name : Option String) (meta : InitMeta)
    (hinit : init_subclass_with_meta snake model_name permissions login_required
      fields only_fields exclude exclude_fields return_field_name = Except.ok meta) :
    (return_field_name = none →
      meta.return_field_name = snake model_name ++ "s") ∧
    (∀ s, return_field_name = some s → s.isEmpty = false →
      meta.return_field_name = s) ∧
    (∀ (Rec Obj E : Type) (h : Hooks Rec Obj E) (authError : E) (db0 : List Obj)
      (input : List Rec) (p : String × List Obj),
      (mutate h authError meta.return_field_name db0 input).result = Except.ok p →
      p.1 = meta.return_field_name) := by
  have hrfn : meta.return_field_name =
      defaultedReturnFieldName snake model_name return_field_name := by
    unfold init_subclass_with_meta at hinit
    dsimp only at hinit
    split at hinit
    · exact Except.noConfusion hinit
    · split at hinit
      · exact Except.noConfusion hinit
      · have h2 := Except.ok.inj hinit
        subst h2
        rfl
  refine ⟨?_, ?_, ?_⟩
  · intro hn
    rw [hrfn, hn]
    rfl
  · intro s hs he
    rw [hrfn, hs]
    simp [defaultedReturnFieldName, he]
  · intro Rec Obj E h aE db0 input p hp
    rcases mutate_result_shape h aE meta.return_field_name db0 input with
      ⟨e, he⟩ | ⟨objs, ho⟩
    · rw [hp] at he
      exact Except.noConfusion he
    · rw [hp] at ho
      rw [Except.ok.inj ho]

/-- The `_meta` produced for a model named `Dog` (whose snake-cased name is
`dog`) with no configured return field name. -/
def dogMeta : InitMeta :=
  { return_field_name := "dogs", login_required := false, fields := [], exclude := [] }

/-- C7 witness: with no configured name, model `Dog` is returned under
`dogs` — the snake-cased model name plus "s". -/
theorem C7_witness : dogMeta.return_field_name = (fun _ => "dog") "Dog" ++ "s" :=
  (C7_return_field_name (fun _ => "dog") "Dog" none none [] [] [] [] none dogMeta
    rfl).1 rfl

/-- C8: a non-empty permissions list makes the produced mutation require
authentication even when the `login_required` option is left unset
(`None`): `_meta.login_required = login_required or (permissions and
len(permissions) > 0)` is then truthy. -/
theorem C8_nonempty_permissions_force_login (snake : String → String)
    (model_name : String) (perms : List String)
    (fields only_fields exclude exclude_fields : List String)
    (return_field_name : Option String) (meta : InitMeta)
    (hp : perms ≠ [])
    (hinit : init_subclass_with_meta snake model_name (some perms) none
      fields only_fields exclude exclude_fields return_field_name = Except.ok meta) :
    meta.login_required = true := by
  unfold init_subclass_with_meta at hinit
  dsimp only at hinit
  split at hinit
  · exact Except.noConfusion hinit
  · split at hinit
    · exact Except.noConfusion hinit
    · have h2 := Except.ok.inj hinit
      subst h2
      cases perms with
      | nil => exact absurd rfl hp
      | cons a l => rfl

/-- The `_meta` produced for model `M` with one permission and
`login_required` unset. -/
def permMeta : InitMeta :=
  { return_field_name := "ms", login_required := true, fields := [], exclude := [] }

/-- C8 witness: one permission string and `login_required` unset still
yield a login-required mutation. -/
theorem C8_witness : permMeta.login_required = true :=
  C8_nonempty_permissions_force_login (fun _ => "m") "M" ["app.change_thing"]
    [] [] [] [] (some "ms") permMeta (by simp) rfl

/-- C9: `before_mutate` is the first thing `mutate` does — its event heads
every trace — so it runs (and its input override is what the permission
check receives) even when the caller is unauthenticated (second
conjunct: the trace of a rejected anonymous call still starts with
`before_mutate`) or lacks permissions (third conjunct: the permission
check is called on the overridden input and its failure still leaves
`before_mutate` first in the trace). -/
theorem C9_before_mutate_runs_before_auth_and_perms {Rec Obj E : Type}
    (h : Hooks Rec Obj E) (authError : E) (rfn : String) (db0 : List Obj)
    (input : List Rec) :
    (mutate h authError rfn db0 input).trace.head? = some Event.beforeMutateEv ∧
    (h.loginRequired = true → h.userAuthenticated = false →
      (mutate h authError rfn db0 input).trace =
        [Event.beforeMutateEv, Event.authCheckEv]) ∧
    (∀ e, (h.loginRequired = false ∨ h.userAuthenticated = true) →
      h.checkPermissions (applyListOverride input (h.beforeMutate input)) =
        Except.error e →
      (mutate h authError rfn db0 input).trace =
        [Event.beforeMutateEv, Event.authCheckEv, Event.permCheckEv]) := by
  refine ⟨mutate_trace_head h authError rfn db0 input, ?_, ?_⟩
  · intro h1 h2
    simp [mutate, h1, h2]
  · intro e hauth hpe
    have hcond : (h.loginRequired && !h.userAuthenticated) = false := by
      rcases hauth with h1 | h1 <;> simp [h1]
    simp [mutate, hcond, hpe]

/-- C9 witness: for an anonymous caller of a login-required mutation the
trace is `before_mutate` then the failed login check — `before_mutate`
did run, first. -/
theorem C9_witness :
    (mutate unauthHooks 0 "xs" [5] [1, 2]).trace =
      [Event.beforeMutateEv, Event.authCheckEv] :=
  (C9_before_mutate_runs_before_auth_and_perms unauthHooks 0 "xs" [5] [1, 2]).2.1
    rfl rfl

/-- C10: the factory raises (and produces no mutation class) when both
`fields` and `only_fields` are set, and likewise — when the first check
passes — when both `exclude` and `exclude_fields` are set. -/
theorem C10_conflicting_options_rejected (snake : String → String)
    (model_name : String) (permissions : Option (List String))
    (login_required : Option Bool)
    (fields only_fields exclude exclude_fields : List String)
    (return_field_name : Option String) :
    (fields ≠ [] → only_fields ≠ [] →
      init_subclass_with_meta snake model_name permissions login_required
        fields only_fields exclude exclude_fields return_field_name =
        Except.error "Cannot set both fields and only_fields on a mutation") ∧
    ((fields = [] ∨ only_fields = []) → exclude ≠ [] → exclude_fields ≠ [] →
      init_subclass_with_meta snake model_name permissions login_required
        fields only_fields exclude exclude_fields return_field_name =
        Except.error "Cannot set both exclude and exclude_fields on a mutation") := by
  constructor
  · intro h1 h2
    have e1 : fields.isEmpty = false := by
      cases fields with
      | nil => exact absurd rfl h1
      | cons a l => rfl
    have e2 : only_fields.isEmpty = false := by
      cases only_fields with
      | nil => exact absurd rfl h2
      | cons a l => rfl
    simp [init_subclass_with_meta, e1, e2]
  · intro h0 h1 h2
    have e1 : exclude.isEmpty = false := by
      cases exclude with
      | nil => exact absurd rfl h1
      | cons a l => rfl
    have e2 : exclude_fields.isEmpty = false := by
      cases exclude_fields with
      | nil => exact absurd rfl h2
      | cons a l => rfl
    have e0 : (!fields.isEmpty && !only_fields.isEmpty) = false := by
      rcases h0 with h3 | h3 <;> subst h3 <;> simp
    simp [init_subclass_with_meta, e0, e1, e2]

/-- C10 witness: setting `fields = ["a"]` and `only_fields = ["b"]`
together is rejected with the corresponding error. -/
theorem C10_witness :
    init_subclass_with_meta (fun s => s) "M" none none ["a"] ["b"] [] [] none =
      Except.error "Cannot set both fields and only_fields on a mutation" :=
  (C10_conflicting_options_rejected (fun s => s) "M" none none ["a"] ["b"] [] []
    none).1 (by simp) (by simp)

end BatchCreate
